import Mathlib

/-!
Verification development for the Meshtastic antenna checker repository
(`Antenna-ping.py` and `to_csv.py`).

The Python source is shallowly embedded: each Python helper becomes a Lean
function over `List Char` / `String`, Python floats are modelled as exact
rationals (all numeric literals exercised here are exactly representable),
and the two regular expressions of `to_csv.py` together with the SNR regex
of `Antenna-ping.py` are embedded as deterministic scanning functions that
reproduce the leftmost-match backtracking semantics of Python's `re.search`
for those concrete patterns.
-/

namespace AntennaChecker

/-- Python `str` whitespace used by `str.strip()` and the regex class `\s`
(ASCII part, which is all that occurs in this repository's data). -/
def isPySpace (c : Char) : Bool :=
  c = ' ' || c = '\t' || c = '\n' || c = '\r' || c = '\x0b' || c = '\x0c'

/-- Python `str.strip()`: drop whitespace from both ends. -/
def strip (s : List Char) : List Char :=
  ((s.dropWhile isPySpace).reverse.dropWhile isPySpace).reverse

/-- Python `str.lower()` (ASCII case folding, which covers the data here). -/
def lower (s : List Char) : List Char := s.map Char.toLower

/-- Python substring containment `pat in s`. -/
def substr (pat : List Char) (s : List Char) : Bool :=
  match s with
  | [] => pat.isEmpty
  | c :: t => pat.isPrefixOf (c :: t) || substr pat t

/-- Helper for `splitlines`: accumulate the current line (reversed) while
scanning; a final newline terminates the last line without opening an
empty one, matching Python `str.splitlines()`. -/
def slGo (acc : List Char) (s : List Char) : List (List Char) :=
  match s with
  | [] => [acc.reverse]
  | '\n' :: [] => [acc.reverse]
  | '\n' :: t => acc.reverse :: slGo [] t
  | c :: t => slGo (c :: acc) t

/-- Python `str.splitlines()` restricted to `'\n'` line endings (the only
line endings produced by the collaborators modelled here).
`splitlines "" = []`, `splitlines "a\n" = ["a"]`. -/
def splitlines (s : List Char) : List (List Char) :=
  match s with
  | [] => []
  | c :: t => slGo [] (c :: t)

/-- Python `str.split("│")`: keeps empty pieces, splits at every
occurrence of the separator, left-to-right. -/
def splitBar (s : List Char) : List (List Char) :=
  match s with
  | [] => [[]]
  | c :: t =>
    if c = '│' then [] :: splitBar t
    else
      match splitBar t with
      | h :: rs => (c :: h) :: rs
      | [] => [[c]]

/-- Python `str.split("-->")`: keeps empty pieces, non-overlapping
left-to-right scan, consuming the three separator characters at each
occurrence. -/
def splitArrow (s : List Char) : List (List Char) :=
  match s with
  | [] => [[]]
  | '-' :: '-' :: '>' :: t => [] :: splitArrow t
  | c :: t =>
    match splitArrow t with
    | h :: rs => (c :: h) :: rs
    | [] => [[c]]

/-- Digit run to a natural number (all chars assumed `Char.isDigit`). -/
def digitsToNat (l : List Char) : Nat :=
  l.foldl (fun n c => 10 * n + (c.toNat - 48)) 0

/-- Decimal string (digits, optional single dot) to an exact rational:
`ip.fr` is the fraction `(ip * 10^k + fr) / 10^k` with `k` the number of
fractional digits. -/
def decToRatPos (t : List Char) : ℚ :=
  let ip := t.takeWhile (fun c => c ≠ '.')
  let rest := t.dropWhile (fun c => c ≠ '.')
  match rest with
  | '.' :: fr =>
    Rat.divInt ((digitsToNat ip * 10 ^ fr.length + digitsToNat fr : Nat) : Int)
      (((10 : Nat) ^ fr.length : Nat) : Int)
  | _ => Rat.divInt ((digitsToNat ip : Nat) : Int) 1

/-- Signed decimal string to an exact rational; models Python `float(...)`
on the regex-matched groups of this repository (every value exercised by
the claims is exactly representable, so the rational model is exact). -/
def decToRat (s : List Char) : ℚ :=
  match s with
  | '-' :: t => - decToRatPos t
  | '+' :: t => decToRatPos t
  | t => decToRatPos t

/-- Python `int(str)`: optional surrounding whitespace, optional sign,
then a non-empty digit run; anything else raises `ValueError` (`none`). -/
def pyInt (s : List Char) : Option Int :=
  let t := strip s
  match t with
  | '-' :: d => if !d.isEmpty && d.all Char.isDigit then some (-(digitsToNat d : Int)) else none
  | '+' :: d => if !d.isEmpty && d.all Char.isDigit then some ((digitsToNat d : Int)) else none
  | d => if !d.isEmpty && d.all Char.isDigit then some ((digitsToNat d : Int)) else none

end AntennaChecker

namespace ToCsv

open AntennaChecker

/-!
Model of `src/to_csv.py`.

`test_name_pattern = re.compile(r"Checking on (.*?)\.\.\.")` and
`trace_pattern = re.compile(r"\[(\d{2}:\d{2}:\d{2})\].*?(?:[:\s](-?\d+\.?\d*)dB)?")`
are embedded as scanning functions. For `trace_pattern`, once
`\[(\d{2}:\d{2}:\d{2})\]` matches, the lazy `.*?` first tries to consume
nothing; the trailing group `(?:[:\s](-?\d+\.?\d*)dB)?` is optional, so the
whole pattern already matches there and the engine never expands `.*?`.
Hence group 2 is set exactly when `[:\s](-?\d+\.?\d*)dB` matches starting
at the character immediately after `]`.
-/

/-- The literal `Checking on ` of `test_name_pattern` (12 characters). -/
def checkingOn : List Char := "Checking on ".toList

/-- The literal `...` terminating the lazy group of `test_name_pattern`. -/
def dots : List Char := "...".toList

/-- Lazy group `(.*?)` before the literal `...`: shortest expansion first;
`.` does not match a newline. -/
def tnGroup (s : List Char) : Option (List Char) :=
  if dots.isPrefixOf s then some []
  else match s with
    | [] => none
    | '\n' :: _ => none
    | c :: t => (tnGroup t).map (fun g => c :: g)

/-- `re.search` of `test_name_pattern`: leftmost start position at which
the literal prefix and a dot-terminated lazy group both match. -/
def tnSearch (s : List Char) : Option (List Char) :=
  match s with
  | [] => none
  | c :: t =>
    if checkingOn.isPrefixOf (c :: t) then
      match tnGroup ((c :: t).drop 12) with
      | some g => some g
      | none => tnSearch t
    else tnSearch t

/-- `\[(\d{2}:\d{2}:\d{2})\]` at the current position: returns the eight
timestamp characters and the rest after `]`. -/
def matchTs (s : List Char) : Option (List Char × List Char) :=
  match s with
  | '[' :: a :: b :: c1 :: d :: e :: c2 :: f :: g :: ']' :: rest =>
    if a.isDigit && b.isDigit && c1 = ':' && d.isDigit && e.isDigit &&
       c2 = ':' && f.isDigit && g.isDigit then
      some ([a, b, c1, d, e, c2, f, g], rest)
    else none
  | _ => none

/-- `-?\d+\.?\d*` with maximal munch; returns the matched characters and
the remainder. Maximal munch agrees with the backtracking engine here
because any shorter match leaves a digit or a dot where the following
literal `dB` would need a `d`. -/
def pyDec (s : List Char) : Option (List Char × List Char) :=
  let core : List Char → Option (List Char × List Char) := fun u =>
    let d1 := u.takeWhile Char.isDigit
    let r1 := u.dropWhile Char.isDigit
    if d1.isEmpty then none
    else match r1 with
      | '.' :: t2 => some (d1 ++ '.' :: t2.takeWhile Char.isDigit, t2.dropWhile Char.isDigit)
      | _ => some (d1, r1)
  match s with
  | '-' :: t => (core t).map (fun p => ('-' :: p.1, p.2))
  | t => core t

/-- The optional suffix group `(?:[:\s](-?\d+\.?\d*)dB)?`, attempted at the
position immediately after `]` (see the module comment: the lazy `.*?`
never expands). -/
def snrSuffix (s : List Char) : Option (List Char) :=
  match s with
  | [] => none
  | c :: rest =>
    if c = ':' || isPySpace c then
      match pyDec rest with
      | some (num, r2) => if ("dB".toList).isPrefixOf r2 then some num else none
      | none => none
    else none

/-- `re.search` of `trace_pattern`: leftmost position where the bracketed
timestamp matches; group 2 is whatever the optional suffix yields there. -/
def traceSearch (s : List Char) : Option (List Char × Option (List Char)) :=
  match s with
  | [] => none
  | c :: t =>
    match matchTs (c :: t) with
    | some (ts, rest) => some (ts, snrSuffix rest)
    | none => traceSearch t

/-- The per-line fold of `process_log` (src/to_csv.py lines 21-33):
a section-header line updates the current test name and yields no record;
otherwise a timestamp line yields one record with the current name, the
timestamp, and the group-2 value or the string `null`. -/
def recordsAux (name : List Char) : List (List Char) → List (List Char × List Char × List Char)
  | [] => []
  | l :: t =>
    match tnSearch l with
    | some g => recordsAux g t
    | none =>
      match traceSearch l with
      | some (ts, snrOpt) =>
        (name, ts, (match snrOpt with | some v => v | none => "null".toList)) :: recordsAux name t
      | none => recordsAux name t

/-- `process_log`'s record list, starting from the sentinel name
`unknown` (src/to_csv.py line 17). -/
def records (lines : List (List Char)) : List (List Char × List Char × List Char) :=
  recordsAux ("unknown".toList) lines

/-- String-level wrapper over `records`. -/
def recordsS (lines : List String) : List (String × String × String) :=
  (records (lines.map String.toList)).map
    (fun r => (r.1.asString, r.2.1.asString, r.2.2.asString))

/-- The fixed CSV header row written by `process_log` (line 38). -/
def csvHeader : List String := ["test_name", "timestamp", "SNR"]

/-- `process_log` (src/to_csv.py lines 6-44) over an abstract input file:
`content = none` models `FileNotFoundError` on `open(input_file)`. The
first component is the written CSV (`none` = no output file created: the
output file is only opened after the whole input was read); the second is
the console report. -/
def process_log (path : String) (content : Option (List String)) :
    Option (List (List String)) × String :=
  match content with
  | some ls =>
    let d := recordsS ls
    (some (csvHeader :: d.map (fun r => [r.1, r.2.1, r.2.2])),
     "Processed " ++ toString d.length ++ " traces from '" ++ path ++ "'.")
  | none => (none, "Error: File '" ++ path ++ "' not found.")

end ToCsv

namespace AntennaPing

open AntennaChecker

/-!
Model of `src/Antenna-ping.py`.

External process calls (`subprocess.run`) are abstracted: `get_node_info`
takes the node-table text that `get_node_list` would return on stdout, and
`run_traceroute` takes the traceroute stdout. Everything downstream of
those strings is embedded faithfully.
-/

/-- The column separator of the rendered node table. -/
def barC : Char := '│'

/-- The column separator as a pattern for substring tests. -/
def barL : List Char := [barC]

/-- The header marker `User`. -/
def uUser : List Char := "User".toList

/-- The header marker `ID`. -/
def uID : List Char := "ID".toList

/-- The `Hops` column key read by the reachability gate (line 123). -/
def hopsL : List Char := "Hops".toList

/-- `str.splitlines()` applied to a whole `String`. -/
def pyLines (s : String) : List (List Char) := splitlines s.toList

/-- `line.strip().startswith("│")` is applied to the already stripped
line, so this just tests the head character. -/
def startsBar (l : List Char) : Bool :=
  match l with
  | c :: _ => c = barC
  | [] => false

/-- Header search (line 41): the first line containing both `User`
and `ID`. -/
def headerOf (lines : List (List Char)) : Option (List Char) :=
  lines.find? (fun l => substr uUser l && substr uID l)

/-- Column split (lines 46 and 55): split on `│`, strip each piece,
drop empty pieces. -/
def colsOf (l : List Char) : List (List Char) :=
  ((splitBar l).map strip).filter (fun c => !c.isEmpty)

/-- Data-line filter (line 49): stripped line starts with `│`, the line
contains `│`, and the line does not contain the substring `User`
anywhere (which excludes the header but also any data row whose text
contains `User`). -/
def dataLinesOf (lines : List (List Char)) : List (List Char) :=
  lines.filter (fun l => startsBar (strip l) && substr barL l && !(substr uUser l))

/-- Row search (lines 52-53): the first data line whose lower-cased text
contains the (already lower-cased) search term. -/
def matchRowOf (term : List Char) (lines : List (List Char)) : Option (List Char) :=
  (dataLinesOf lines).find? (fun l => substr term (lower l))

/-- `get_node_info` (src/Antenna-ping.py lines 26-59). The returned
association list is the `zip(columns, parts)` that Python turns into a
dict; the dict itself is recovered by the two accessors `dictGet`
(lookup: last value written for a key) and `dictKeys` (key enumeration:
first-occurrence insertion order), which together are exactly Python's
dict semantics, also for duplicate column names. -/
def get_node_info (node_id output : String) : Option (List (List Char × List Char)) :=
  match headerOf (pyLines output) with
  | none => none
  | some h =>
    match matchRowOf (lower node_id.toList) (pyLines output) with
    | none => none
    | some row => some ((colsOf h).zip (colsOf row))

/-- Python dict lookup on the zipped association list: the value of the
last pair with the given key (later duplicates overwrite earlier ones in
`dict(zip(...))`). Together with `dictKeys` below, this recovers exactly
the Python dict built from the pair list: lookups take the last value
written for a key, key enumeration keeps each key at the position of its
first insertion. -/
def dictGet (rec : List (List Char × List Char)) (k : List Char) : Option (List Char) :=
  match rec with
  | [] => none
  | (k0, v) :: t =>
    match dictGet t k with
    | some v' => some v'
    | none => if k0 = k then some v else none

/-- First-occurrence deduplication: each element at the position of its
first appearance, later duplicates dropped — the key order of a Python
dict built by successive insertions. -/
def dedupFirst : List (List Char) → List (List Char)
  | [] => []
  | k :: t => k :: (dedupFirst t).filter (fun x => x ≠ k)

/-- The key sequence of the Python dict `dict(zip(...))` built from the
association list: insertion order with each duplicate key collapsed to
its first occurrence (inserting an existing key overwrites the value but
keeps the key's original position). -/
def dictKeys (rec : List (List Char × List Char)) : List (List Char) :=
  dedupFirst (rec.map Prod.fst)

/-- The uncaught Python exceptions that the reachability step of `main`
can raise. -/
inductive PyError
  | typeError
  | keyError
  | valueError
deriving DecidableEq, Repr

/-- Outcome of the reachability pre-check in `main`
(src/Antenna-ping.py lines 116-127). -/
inductive ReachOutcome
  | proceed (rec : List (List Char × List Char))
  | abortNotDirect
  | crash (e : PyError)
deriving DecidableEq, Repr

/-- The hop gate of `main` (line 123): `int(node_info["Hops"]) > 0`.
`node_info = None` makes the subscript raise `TypeError`; a missing
`Hops` key raises `KeyError`; a non-numeric value makes `int(...)` raise
`ValueError`; otherwise a positive value prints `Aborting: Target is not
direct` and exits, and any value `≤ 0` proceeds to the probe loop. -/
def reach_check (info : Option (List (List Char × List Char))) : ReachOutcome :=
  match info with
  | none => ReachOutcome.crash PyError.typeError
  | some rec =>
    match dictGet rec hopsL with
    | none => ReachOutcome.crash PyError.keyError
    | some hs =>
      match pyInt hs with
      | none => ReachOutcome.crash PyError.valueError
      | some v => if 0 < v then ReachOutcome.abortNotDirect else ReachOutcome.proceed rec

/-- Steps 1 of `main`: fetch the node record for the target from the
node-table text and run the hop gate on it. -/
def checkReachability (target output : String) : ReachOutcome :=
  reach_check (get_node_info target output)

/-- The marker line literal of `run_traceroute` (line 77). -/
def markerL : List Char := "Route traced back to us:".toList

/-- Index of the first line containing the marker (line 77). -/
def markerIdx (lines : List (List Char)) : Option Nat :=
  lines.findIdx? (substr markerL)

/-- Hop split (line 85): split the stripped route-back line on `-->` and
strip each hop. -/
def hopsOf (l : List Char) : List (List Char) :=
  (splitArrow (strip l)).map strip

/-- `[-+]?\d*\.?\d+` with deterministic maximal munch, used by the SNR
regex of `run_traceroute` (line 90); as for `pyDec`, maximal munch agrees
with the backtracking engine because the group must be followed by the
literal `dB)`, and every shorter candidate leaves a digit or a dot where
the `d` is required. -/
def snrNumAt (s : List Char) : Option (List Char × List Char) :=
  let core : List Char → Option (List Char × List Char) := fun u =>
    let d1 := u.takeWhile Char.isDigit
    let r1 := u.dropWhile Char.isDigit
    match r1 with
    | '.' :: t2 =>
      let d2 := t2.takeWhile Char.isDigit
      if d2.isEmpty then none
      else some (d1 ++ '.' :: d2, t2.dropWhile Char.isDigit)
    | _ => if d1.isEmpty then none else some (d1, r1)
  match s with
  | '-' :: t => (core t).map (fun p => ('-' :: p.1, p.2))
  | '+' :: t => (core t).map (fun p => ('+' :: p.1, p.2))
  | t => core t

/-- `re.search(r"\(([-+]?\d*\.?\d+)dB\)", text)` (line 90): leftmost `(`
at which the signed decimal followed by `dB)` matches; returns group 1. -/
def snrSearch (s : List Char) : Option (List Char) :=
  match s with
  | [] => none
  | '(' :: t =>
    (match snrNumAt t with
     | some (g, r) => if ("dB)".toList).isPrefixOf r then some g else snrSearch t
     | none => snrSearch t)
  | _ :: t => snrSearch t

/-- The failure status of lines 78-79. -/
def lostMsg : String := "Route lost or timed out"

/-- `run_traceroute` (src/Antenna-ping.py lines 62-99), applied to the
stdout text of the traceroute collaborator. Note that when the route
splits into exactly two hops but the SNR regex does not match, control
falls past the `elif` to the final `return None, "FAIL: no hops"`. -/
def run_traceroute (stdout : String) : Option ℚ × String :=
  let lines := pyLines stdout
  match markerIdx lines with
  | none => (none, lostMsg)
  | some i =>
    match lines.drop (i + 1) with
    | [] => (none, lostMsg)
    | l :: _ =>
      let hops := hopsOf l
      if hops.length = 2 then
        match snrSearch (hops.getLastD []) with
        | some g => (some (decToRat g), "OK")
        | none => (none, "FAIL: no hops")
      else if 2 < hops.length then (none, "FAIL: Reponse not direct")
      else (none, "FAIL: no hops")

/-- One iteration of the probe loop (lines 139-143): `if snr:` tests
Python truthiness of the float, so a present SNR of exactly `0.0` is
not appended. -/
def scheduler_step (acc : List ℚ) (o : Option ℚ × String) : List ℚ :=
  match o.1 with
  | some v => if v = 0 then acc else acc ++ [v]
  | none => acc

/-- The probe loop of `main` (lines 132-146) abstracted over the sequence
of probe outcomes: the `inbound_history` list after all attempts. Every
attempt is processed; nothing breaks out of the loop. -/
def scheduler_history (outs : List (Option ℚ × String)) : List ℚ :=
  outs.foldl scheduler_step []

/-- `statistics.mean` over the exact-rational sample model (line 150). -/
def mean (l : List ℚ) : ℚ := l.sum / (l.length : ℚ)

end AntennaPing

section Claims

open AntennaChecker ToCsv AntennaPing

/-- Auxiliary: the first components of a zip are a prefix of the first
list, truncated to the second list's length (the `dict(zip(columns,
parts))` key set of `get_node_info`). -/
theorem zip_map_fst {α β : Type} (a : List α) (b : List β) :
    (a.zip b).map Prod.fst = a.take b.length := by
  induction a generalizing b with
  | nil => simp
  | cons x xs ih =>
    cases b with
    | nil => simp
    | cons y ys => simp [ih]

/-- C1: evaluation of `process_log`'s record extraction at the claim's own
four-line input. The spec and the comment on `trace_pattern` both promise
that group 2 carries the SNR (`-5.0` for the first trace line), but the
lazy `.*?` in front of the fully optional group means the group is only
ever tried immediately after the `]`, where ` Trace ...` makes it fail:
the code emits `null` for both records, diverging from the claim. -/
theorem c1_code_eval :
    recordsS ["Checking on pepper...", "[10:00:00] Trace 1/1: OK: -5.0dB",
      "Checking on salt...", "[10:05:00] Trace 1/1: FAILED"] =
    [("pepper", "10:00:00", "null"), ("salt", "10:05:00", "null")] := by decide

/-- C9: when the input file cannot be opened (`FileNotFoundError`,
modelled as `content = none`), `process_log` reports the file-not-found
message, and no output file is created (the output file is only opened
after the input was fully read), hence zero records are emitted. -/
theorem c9_file_not_found (path : String) :
    (process_log path none).1 = none ∧
    (process_log path none).2 = "Error: File '" ++ path ++ "' not found." :=
  ⟨rfl, rfl⟩

/-- C10 counterexample: the claim says the SNR group is empty on EVERY
input line, but a line whose dB suffix starts immediately after the `]`
does populate group 2: this record's SNR field is `-5.0`, not `null`. -/
theorem c10_counterexample :
    recordsS ["[10:00:00]:-5.0dB"] = [("unknown", "10:00:00", "-5.0")] := by decide

/-- C10 amended: the lazy `.*?` of `trace_pattern` never expands, so
group 2 is non-empty only when `[:\s](-?\d+\.?\d*)dB` matches immediately
after the closing bracket. In particular, on every line of the run-log
trace format (timestamp followed by ` T` of ` Trace`), the group is
empty, whatever follows — so all records from such lines carry `null`. -/
theorem c10_amended (rest : List Char) :
    traceSearch ("[10:00:00] T".toList ++ rest) =
      some ("10:00:00".toList, none) := rfl

/-- C2 counterexample: the claim requires `Hops = -1` to yield
direct=false and an abort, but the gate is `int(...) > 0`, so a record
whose `Hops` cell is `-1` (which `int` parses to `-1`) passes the gate
and the run proceeds to probing. -/
theorem c2_counterexample :
    checkReachability "pepper" "│ User │ ID │ Hops │\n│ pepper │ !abc │ -1 │" =
      ReachOutcome.proceed [("User".toList, "pepper".toList),
        ("ID".toList, "!abc".toList), ("Hops".toList, "-1".toList)]
  ∧ pyInt ("-1".toList) = some (-1) :=
  ⟨by decide, by decide⟩

/-- C2 amended: the gate decides direct (proceed) iff the parsed `Hops`
value is at most 0 — not exactly 0: every positive value aborts, zero and
every negative value proceed — and a non-numeric `Hops` value raises an
uncaught `ValueError` from `int(...)`, fatal and distinct from the other
outcomes. -/
theorem c2_amended (rec : List (List Char × List Char)) (hs : List Char) (v : Int)
    (hrec : dictGet rec hopsL = some hs) :
    (pyInt hs = some v →
      ((reach_check (some rec) = ReachOutcome.proceed rec ↔ v ≤ 0) ∧
       (reach_check (some rec) = ReachOutcome.abortNotDirect ↔ 0 < v)))
  ∧ (pyInt hs = none → reach_check (some rec) = ReachOutcome.crash PyError.valueError) := by
  constructor
  · intro hp
    by_cases h0 : 0 < v
    · constructor
      · simp [reach_check, hrec, hp, h0]
      · simp [reach_check, hrec, hp, h0]
    · constructor
      · simp [reach_check, hrec, hp, h0]
        omega
      · simp [reach_check, hrec, hp, h0]
  · intro hp
    simp [reach_check, hrec, hp]

/-- C2 witness: a record whose `Hops` cell is `0` passes the gate. -/
theorem c2_witness :
    reach_check (some [("Hops".toList, "0".toList)]) =
      ReachOutcome.proceed [("Hops".toList, "0".toList)] :=
  ((c2_amended [("Hops".toList, "0".toList)] ("0".toList) 0 (by decide)).1
    (by decide)).1.mpr (by decide)

/-- C3 counterexample: with a node table that does not contain the
target, `get_node_info` returns `None` and `main` then evaluates
`int(node_info["Hops"])`, which raises an uncaught `TypeError`
(subscripting `None`): the run dies with a traceback, it does not report
an "aborting — target not found" condition. -/
theorem c3_counterexample :
    checkReachability "ghost" "│ User │ ID │ Hops │\n│ pepper │ !abc │ 0 │" =
      ReachOutcome.crash PyError.typeError := by decide

/-- C3 amended: when the target is absent from the node-table snapshot
the run does terminate before any probe is issued, but through an
uncaught `TypeError` raised while the hop check subscripts the absent
record — an uncontrolled crash, not a reported "target not found"
abort (no such message exists in the code). -/
theorem c3_amended (target output : String)
    (h : get_node_info target output = none) :
    checkReachability target output = ReachOutcome.crash PyError.typeError := by
  unfold checkReachability
  rw [h]
  rfl

/-- C3 witness: the amended theorem applied to a concrete snapshot that
lacks the target. -/
theorem c3_witness :
    checkReachability "salt" "│ User │ ID │ Hops │\n│ pepper │ !abc │ 1 │" =
      ReachOutcome.crash PyError.typeError :=
  c3_amended "salt" "│ User │ ID │ Hops │\n│ pepper │ !abc │ 1 │" (by decide)

/-- C4: the decision table of `run_traceroute`, for every probe output
text. No marker line, or no line after it, gives the
route-lost-or-timed-out failure; a route-back line splitting on `-->`
into exactly 2 hops whose final hop carries a parenthesized signed
decimal dB value gives that value with status `OK`; more than 2 hops
gives the not-direct failure (spelled `FAIL: Reponse not direct` in the
code); fewer than 2 hops gives `FAIL: no hops`. -/
theorem c4_decision_table (stdout : String) :
    (markerIdx (pyLines stdout) = none → run_traceroute stdout = (none, lostMsg))
  ∧ (∀ i, markerIdx (pyLines stdout) = some i → (pyLines stdout).drop (i + 1) = [] →
      run_traceroute stdout = (none, lostMsg))
  ∧ (∀ i l t, markerIdx (pyLines stdout) = some i →
      (pyLines stdout).drop (i + 1) = l :: t →
      ((∀ g, (hopsOf l).length = 2 → snrSearch ((hopsOf l).getLastD []) = some g →
          run_traceroute stdout = (some (decToRat g), "OK"))
       ∧ (2 < (hopsOf l).length →
          run_traceroute stdout = (none, "FAIL: Reponse not direct"))
       ∧ ((hopsOf l).length < 2 → run_traceroute stdout = (none, "FAIL: no hops")))) := by
  refine ⟨fun h1 => ?_, fun i h1 h2 => ?_, fun i l t h1 h2 => ?_⟩
  · simp [run_traceroute, h1]
  · simp [run_traceroute, h1, h2]
  · refine ⟨fun g hlen hg => ?_, fun hlen => ?_, fun hlen => ?_⟩
    · rw [List.getLastD_eq_getLast?] at hg
      simp [run_traceroute, h1, h2, hlen, hg]
    · have hne : (hopsOf l).length ≠ 2 := by omega
      simp [run_traceroute, h1, h2, hne, hlen]
    · have hne : (hopsOf l).length ≠ 2 := by omega
      have hnl : ¬ 2 < (hopsOf l).length := by omega
      simp [run_traceroute, h1, h2, hne, hnl]

/-- C4 witness: the claim's own example `A --> B` with trailing
`B (-7.0dB)` yields SNR `-7.0` with status `OK`. -/
theorem c4_witness :
    run_traceroute "Route traced back to us:\nA --> B (-7.0dB)" = (some (-7), "OK") := by
  have h := ((c4_decision_table "Route traced back to us:\nA --> B (-7.0dB)").2.2 0
      ("A --> B (-7.0dB)".toList) [] (by decide) (by decide)).1
      ("-7.0".toList) (by decide) (by decide)
  have e : decToRat ("-7.0".toList) = -7 := by decide
  rw [e] at h
  exact h

/-- C8 counterexample: a 2-hop response without a parenthesized dB value
falls through to `return None, "FAIL: no hops"` — the exact same status
string as the fewer-than-2-hops case — because the `if len(hops) == 2`
branch has no own failure return. The claimed distinct "no signal value"
status does not exist. -/
theorem c8_counterexample :
    run_traceroute "Route traced back to us:\nA --> B" = (none, "FAIL: no hops")
  ∧ (hopsOf ("A --> B".toList)).length = 2
  ∧ run_traceroute "Route traced back to us:\nonehop" = (none, "FAIL: no hops")
  ∧ (hopsOf ("onehop".toList)).length = 1 :=
  ⟨by decide, by decide, by decide, by decide⟩

/-- C8 amended: a 2-hop response whose final hop has no parseable
parenthesized dB value yields the failure status `FAIL: no hops`, the
same status string as the fewer-than-2-hops case (not a distinct
"no signal value" status). -/
theorem c8_amended (stdout : String) (i : Nat) (l : List Char) (t : List (List Char))
    (h1 : markerIdx (pyLines stdout) = some i)
    (h2 : (pyLines stdout).drop (i + 1) = l :: t)
    (h3 : (hopsOf l).length = 2)
    (h4 : snrSearch ((hopsOf l).getLastD []) = none) :
    run_traceroute stdout = (none, "FAIL: no hops") := by
  rw [List.getLastD_eq_getLast?] at h4
  simp [run_traceroute, h1, h2, h3, h4]

/-- C8 witness: the amended theorem applied to a concrete 2-hop
response with no dB value. -/
theorem c8_witness :
    run_traceroute "Route traced back to us:\nC --> D" = (none, "FAIL: no hops") :=
  c8_amended "Route traced back to us:\nC --> D" 0 ("C --> D".toList) []
    (by decide) (by decide) (by decide) (by decide)

/-- C5 counterexample: a probe whose route parses successfully with SNR
exactly `0.0` returns `(0.0, "OK")`, yet `if snr:` tests Python
truthiness of the float, so the sample is NOT appended to the history —
the claim's "including a success whose SNR value is 0.0" fails. -/
theorem c5_counterexample :
    run_traceroute "Route traced back to us:\nA --> B (0.0dB)" = (some 0, "OK")
  ∧ scheduler_history [(some 0, "OK")] = [] :=
  ⟨by decide, by decide⟩

/-- C5 amended: the scheduler appends the SNR on every successful attempt
whose value is nonzero (a success with SNR exactly 0.0 is skipped by the
float-truthiness test `if snr:`), a failed attempt never aborts the
remaining attempts (it contributes nothing and the fold continues), and
with outcomes SNR 1.0, failure, SNR 3.0 the final history is `[1.0, 3.0]`
with mean `2.00` (exactly 2). -/
theorem c5_amended :
    (∀ pre post msg, scheduler_history (pre ++ (none, msg) :: post) =
        scheduler_history (pre ++ post))
  ∧ (∀ pre v msg, v ≠ 0 →
        scheduler_history (pre ++ [(some v, msg)]) = scheduler_history pre ++ [v])
  ∧ scheduler_history [(some 1, "OK"), (none, "FAIL: no hops"), (some 3, "OK")] = [1, 3]
  ∧ mean [1, 3] = 2 := by
  refine ⟨fun pre post msg => ?_, fun pre v msg hv => ?_, by decide, by norm_num [mean]⟩
  · simp [scheduler_history, List.foldl_append, scheduler_step]
  · simp [scheduler_history, List.foldl_append, scheduler_step, hv]

/-- C5 witness: a nonzero success appended through the amended theorem. -/
theorem c5_witness : scheduler_history [(some 2, "OK")] = [2] := by
  have h := c5_amended.2.1 [] 2 "OK" (by norm_num)
  simpa [scheduler_history] using h

/-- C6 counterexample: a valid 3-column header with a matching data row
holding only 2 non-empty cells: `dict(zip(columns, parts))` truncates to
the shorter list, so the record's keys are `User, ID` — NOT the full
header column list `User, ID, Hops`, contradicting "regardless of how
many non-empty cells the matching data row has". -/
theorem c6_counterexample :
    get_node_info "pepper" "│ User │ ID │ Hops │\n│ pepper │ !abc │" =
      some [("User".toList, "pepper".toList), ("ID".toList, "!abc".toList)]
  ∧ dictKeys [("User".toList, "pepper".toList), ("ID".toList, "!abc".toList)] =
      ["User".toList, "ID".toList]
  ∧ headerOf (pyLines "│ User │ ID │ Hops │\n│ pepper │ !abc │") =
      some ("│ User │ ID │ Hops │".toList)
  ∧ colsOf ("│ User │ ID │ Hops │".toList) =
      ["User".toList, "ID".toList, "Hops".toList] :=
  ⟨by decide, by decide, by decide, by decide⟩

/-- C6 amended: whenever `get_node_info` returns a record, the Python
dict's key sequence (`dictKeys`: insertion order, duplicate names
collapsed to their first occurrence) is the first-occurrence
deduplication of the trimmed non-empty header column names in header
order, truncated to the number of non-empty cells of the matching row —
so it equals the full header column list exactly when the row has at
least as many non-empty cells as the header has columns and the column
names are distinct, not regardless of the row's cell count. -/
theorem c6_amended (node_id output : String) (rec : List (List Char × List Char))
    (h : get_node_info node_id output = some rec) :
    ∃ hd row, headerOf (pyLines output) = some hd ∧
      matchRowOf (lower node_id.toList) (pyLines output) = some row ∧
      dictKeys rec = dedupFirst ((colsOf hd).take (colsOf row).length) := by
  unfold get_node_info at h
  split at h
  · exact absurd h (by simp)
  · rename_i hd hh
    split at h
    · exact absurd h (by simp)
    · rename_i row hr
      refine ⟨hd, row, hh, hr, ?_⟩
      obtain rfl : (colsOf hd).zip (colsOf row) = rec := by
        exact Option.some.inj h
      unfold dictKeys
      rw [zip_map_fst]

/-- C6 witness: the amended theorem applied to a table whose matching
row has as many cells as the header has distinct columns: the dict keys
are all three column names. -/
theorem c6_witness :
    ∃ hd row,
      headerOf (pyLines "│ User │ ID │ Hops │\n│ salt │ !eee │ 0 │") = some hd ∧
      matchRowOf (lower ("salt".toList))
        (pyLines "│ User │ ID │ Hops │\n│ salt │ !eee │ 0 │") = some row ∧
      dictKeys [("User".toList, "salt".toList), ("ID".toList, "!eee".toList),
        ("Hops".toList, "0".toList)] =
        dedupFirst ((colsOf hd).take (colsOf row).length) :=
  c6_amended "salt" "│ User │ ID │ Hops │\n│ salt │ !eee │ 0 │" _ (by decide)

/-- C7 counterexample: a non-header data row that happens to contain the
substring `User` (a node named `UserBob`): it begins with the column
separator, contains a separator, differs from the header, and its
lower-cased text contains the search term — by the claim it must be a
candidate and be returned — yet the filter `"User" not in line` discards
it and `get_node_info` returns the absent result. -/
theorem c7_counterexample :
    get_node_info "userbob" "│ User │ ID │ Hops │\n│ UserBob │ !id1 │ 0 │" = none
  ∧ startsBar (strip ("│ UserBob │ !id1 │ 0 │".toList)) = true
  ∧ substr barL ("│ UserBob │ !id1 │ 0 │".toList) = true
  ∧ ("│ UserBob │ !id1 │ 0 │".toList) ≠ ("│ User │ ID │ Hops │".toList)
  ∧ substr (lower ("userbob".toList)) (lower ("│ UserBob │ !id1 │ 0 │".toList)) = true :=
  ⟨by decide, by decide, by decide, by decide, by decide⟩

/-- C7 amended: the candidate data rows are exactly the lines that
(stripped) begin with the column separator, contain a separator, and do
not contain the substring `User` anywhere — which excludes the header
row but also excludes any data row whose text contains `User`; the first
candidate whose lower-cased text contains the lower-cased term is
returned, and when no header or no matching row exists the result is the
explicit absent value `none`, never a crash. -/
theorem c7_amended (node_id output : String) (l : List Char)
    (hl : l ∈ pyLines output) :
    (l ∈ dataLinesOf (pyLines output) ↔
      (startsBar (strip l) && substr barL l && !(substr uUser l)) = true)
  ∧ matchRowOf (lower node_id.toList) (pyLines output) =
      (dataLinesOf (pyLines output)).find?
        (fun r => substr (lower node_id.toList) (lower r))
  ∧ (matchRowOf (lower node_id.toList) (pyLines output) = none →
      get_node_info node_id output = none) := by
  refine ⟨?_, rfl, fun hm => ?_⟩
  · constructor
    · intro hmem
      exact (List.mem_filter.mp hmem).2
    · intro hcond
      exact List.mem_filter.mpr ⟨hl, hcond⟩
  · unfold get_node_info
    cases eh : headerOf (pyLines output) with
    | none => rfl
    | some hd =>
      rw [hm]

/-- C7 witness: the amended theorem applied to a concrete line and an
unknown search term. -/
theorem c7_witness :
    get_node_info "nobody" "│ User │ ID │ Hops │\n│ salt │ !eee │ 0 │" = none :=
  (c7_amended "nobody" "│ User │ ID │ Hops │\n│ salt │ !eee │ 0 │"
    ("│ salt │ !eee │ 0 │".toList) (by decide)).2.2 (by decide)

end Claims
